import Mathlib

/-!
Verification of the dog-image GAN notebook (`dl_final.ipynb`).

This file shallowly embeds the data model and the operations of the
notebook: XML annotation parsing (` parse_annotation`), the image
preprocessing pipeline (`normalize_image`, `load_and_preprocess_images`),
and the training loop (`train_gan`), and proves the specified properties
about them.

Modelling conventions:
* Python integers are `Int`, pixel channel values are `Fin 256`
  (8-bit images as loaded by PIL), normalized pixel values are `ℚ`
  (floats in the source; all values involved are exactly representable
  and the claims are order/shape claims, so `ℚ` is faithful).
* `ET.parse` failures and the exceptions raised by `.text` on a missing
  element / `int()` on a non-numeric string are modelled with `Except`.
* The filesystem is a partial map from path to image content;
  `Image.open` raising `FileNotFoundError` is the `none` case.
* `PIL.Image.crop` is modelled exactly (out-of-bounds area padded with
  zero pixels, size `(right-left, bottom-top)` clamped at 0);
  `PIL.Image.resize((128,128))` is modelled as deterministic
  nearest-neighbour sampling: the claims under verification depend only
  on the output dimensions, on every output pixel being a valid 8-bit
  pixel, and on determinism, all of which hold for any PIL resampling
  filter.
* The NumPy RNG, the Keras models and their `train_on_batch` /
  `predict` methods are opaque library state; `train_gan` is embedded
  parametrically over them (`GanEnv`) and emits an explicit event trace,
  so every theorem about the loop holds for all possible library
  behaviours.
-/

/-! ## Annotation records and ` parse_annotation` -/

/-- The Python errors that the notebook's parsing path can raise:
`xml.etree.ElementTree.ParseError` from `ET.parse`, `AttributeError`
from `.text` on the `None` returned by a failed `find`, and
`ValueError` from `int()` on a non-numeric string. -/
inductive PyError where
  | xmlParseError
  | attributeError
  | valueError
  deriving DecidableEq, Repr

/-- A well-formed XML annotation document, reduced to the element texts
that ` parse_annotation` reads: `find(path).text` is `none` when the
element is missing or empty. -/
structure XmlDoc where
  filenameText : Option String
  widthText : Option String
  heightText : Option String
  nameText : Option String
  xminText : Option String
  yminText : Option String
  xmaxText : Option String
  ymaxText : Option String
  deriving DecidableEq, Repr

/-- An annotation file on disk: either not well-formed XML (so
`ET.parse` raises) or a parsed document. -/
inductive XmlFile where
  | malformed
  | wellFormed (doc : XmlDoc)
  deriving DecidableEq, Repr

/-- Digit-string to number, `none` when empty or containing a
non-digit. -/
def digitsToNat (cs : List Char) : Option Nat :=
  if cs = [] then none
  else if cs.all (fun c => c.isDigit) then
    some (cs.foldl (fun acc c => 10 * acc + (c.toNat - 48)) 0)
  else none

/-- Python `int(s)` on the plain decimal strings that occur in
annotation files: an optional sign followed by digits. -/
def pyInt (s : String) : Option Int :=
  match s.toList with
  | '-' :: rest => (digitsToNat rest).map (fun n => -(n : Int))
  | '+' :: rest => (digitsToNat rest).map (fun n => (n : Int))
  | cs => (digitsToNat cs).map (fun n => (n : Int))

/-- The record built by ` parse_annotation`: exactly the eight keys of
the Python dict, in source order. -/
structure AnnotationData where
  filename : String
  width : Int
  height : Int
  class_ : String
  xmin : Int
  ymin : Int
  xmax : Int
  ymax : Int
  deriving DecidableEq, Repr

/-- `find(path).text` : raises `AttributeError` when `find` returned
`None` (element missing). -/
def getText (o : Option String) : Except PyError String :=
  match o with
  | none => .error .attributeError
  | some s => .ok s

/-- `int(find(path).text)` : `AttributeError` when the element is
missing, `ValueError` when the text is not an integer literal. -/
def getInt (o : Option String) : Except PyError Int :=
  match o with
  | none => .error .attributeError
  | some s =>
    match pyInt s with
    | none => .error .valueError
    | some n => .ok n

/-- ` parse_annotation(annotation_file)` from the notebook: parse the
XML tree and build the eight-field record. -/
def parse_annotation (f : XmlFile) : Except PyError AnnotationData :=
  match f with
  | .malformed => .error .xmlParseError
  | .wellFormed doc => do
    let fn ← getText doc.filenameText
    let w ← getInt doc.widthText
    let h ← getInt doc.heightText
    let cls ← getText doc.nameText
    let x1 ← getInt doc.xminText
    let y1 ← getInt doc.yminText
    let x2 ← getInt doc.xmaxText
    let y2 ← getInt doc.ymaxText
    .ok { filename := fn, width := w, height := h, class_ := cls,
          xmin := x1, ymin := y1, xmax := x2, ymax := y2 }

/-- The annotation-loading loop of the EDA cell: iterate over the
folders of `Annotation/` and the files inside each, parsing every file
with ` parse_annotation` (no exception handling) and appending the
records in order. -/
def buildAnnotationsFolder (files : List XmlFile) :
    Except PyError (List AnnotationData) :=
  match files with
  | [] => .ok []
  | f :: rest => do
    let a ← parse_annotation f
    let tail ← buildAnnotationsFolder rest
    .ok (a :: tail)

/-- The full DataFrame-building loop over all annotation folders. -/
def buildAnnotations (folders : List (List XmlFile)) :
    Except PyError (List AnnotationData) :=
  match folders with
  | [] => .ok []
  | folder :: rest => do
    let xs ← buildAnnotationsFolder folder
    let ys ← buildAnnotations rest
    .ok (xs ++ ys)

/-! ## Images and the preprocessing pipeline -/

/-- An 8-bit RGB pixel as PIL delivers it for the dataset's JPEG
images: three channel values in `0..255`. -/
structure Pixel where
  r : Fin 256
  g : Fin 256
  b : Fin 256
  deriving DecidableEq, Repr

/-- The zero (black) pixel PIL uses to pad crop regions that extend
outside the source image. -/
def Pixel.black : Pixel := ⟨0, 0, 0⟩

/-- An in-memory PIL image: its size and its pixel grid.  `pix x y` is
only meaningful for `0 ≤ x < width`, `0 ≤ y < height`; operations never
read outside that range. -/
structure Image where
  width : Nat
  height : Nat
  pix : Int → Int → Pixel

/-- `image.crop((left, upper, right, lower))`: the result has size
`(right-left, lower-upper)` (clamped at zero) and pixel `(i, j)` is the
source pixel `(left+i, upper+j)`, or black when that falls outside the
source image. -/
def Image.crop (img : Image) (box : Int × Int × Int × Int) : Image :=
  let (l, u, r, b) := box
  { width := (r - l).toNat
    height := (b - u).toNat
    pix := fun i j =>
      if 0 ≤ l + i ∧ l + i < (img.width : Int) ∧
         0 ≤ u + j ∧ u + j < (img.height : Int) then
        img.pix (l + i) (u + j)
      else Pixel.black }

/-- `image.resize((w, h))`, as nearest-neighbour sampling from the
source grid.  Every output pixel is a pixel of the source image (or
black if the source is empty), which is all the verified claims rely
on. -/
def Image.resizeTo (img : Image) (w h : Nat) : Image :=
  { width := w
    height := h
    pix := fun i j =>
      if 0 ≤ i ∧ i < (w : Int) ∧ 0 ≤ j ∧ j < (h : Int) then
        img.pix (i * img.width / w) (j * img.height / h)
      else Pixel.black }

/-- `np.array(pil_image)` for an RGB image: a `height × width × 3`
nested array, row-major, channels in RGB order. -/
def npArrayOf (img : Image) : List (List (List Nat)) :=
  (List.range img.height).map (fun y =>
    (List.range img.width).map (fun x =>
      [(img.pix (Int.ofNat x) (Int.ofNat y)).r.val,
       (img.pix (Int.ofNat x) (Int.ofNat y)).g.val,
       (img.pix (Int.ofNat x) (Int.ofNat y)).b.val]))

/-- `normalize_image(image)`: divide every array element by `255.0`. -/
def normalize_image (arr : List (List (List Nat))) : List (List (List ℚ)) :=
  arr.map (fun row => row.map (fun px => px.map (fun (v : Nat) => (v : ℚ) / 255)))

/-- The filesystem visible to `Image.open`: path to image content, or
`none` when opening raises `FileNotFoundError`. -/
def FileSystem := String → Option Image

/-- `images_path` as defined in the notebook. -/
def images_path : String := "all-dogs/"

/-- `os.path.join(images_path, annotation_data['filename'] + '.jpg')`
(the join degenerates to concatenation because `images_path` ends with
a slash). -/
def imagePathOf (a : AnnotationData) : String :=
  images_path ++ a.filename ++ ".jpg"

/-- Does the character list start with `%s`? -/
def psHere : List Char → Bool
  | '%' :: 's' :: _ => true
  | _ => false

/-- Does the character list contain `%s` as a contiguous substring? -/
def hasPercentS : List Char → Bool
  | [] => false
  | c :: cs => psHere (c :: cs) || hasPercentS cs

/-- Python `'%s' in image_path`. -/
def containsPercentS (s : String) : Bool :=
  hasPercentS s.toList

/-- The per-record processing performed by `load_and_preprocess_images`
once the image is open: `w = np.min((xmax - xmin, ymax - ymin))`, crop
to `(xmin, ymin, xmin + w, ymin + w)`, resize to `(128, 128)`,
`normalize_image(np.array(...))`. -/
def processOne (image : Image) (a : AnnotationData) : List (List (List ℚ)) :=
  let w := min (a.xmax - a.xmin) (a.ymax - a.ymin)
  let bbox := (a.xmin, a.ymin, a.xmin + w, a.ymin + w)
  let cropped := image.crop bbox
  let resized := cropped.resizeTo 128 128
  normalize_image (npArrayOf resized)

/-- The inner loop of `load_and_preprocess_images` over one annotation
folder: parse each file (exceptions propagate), skip paths containing
`%s`, skip files whose `Image.open` raises `FileNotFoundError`, and
append the processed image and the annotation record otherwise. -/
def loadFolder (fs : FileSystem) (files : List XmlFile) :
    Except PyError (List (List (List (List ℚ))) × List AnnotationData) :=
  match files with
  | [] => .ok ([], [])
  | f :: rest => do
    let a ← parse_annotation f
    let path := imagePathOf a
    if containsPercentS path then
      loadFolder fs rest
    else
      match fs path with
      | none => loadFolder fs rest
      | some img => do
        let tail ← loadFolder fs rest
        .ok (processOne img a :: tail.1, a :: tail.2)

/-- `load_and_preprocess_images(images_path, annotations_path)`: the
outer loop over annotation folders, returning the processed-image list
and the annotation list. -/
def load_and_preprocess_images (fs : FileSystem)
    (folders : List (List XmlFile)) :
    Except PyError (List (List (List (List ℚ))) × List AnnotationData) :=
  match folders with
  | [] => .ok ([], [])
  | folder :: rest => do
    let xs ← loadFolder fs folder
    let ys ← load_and_preprocess_images fs rest
    .ok (xs.1 ++ ys.1, xs.2 ++ ys.2)

/-! ## The training loop `train_gan` -/

/-- `np.ones((batch_size, 1))`, as a `batch_size × 1` matrix. -/
def npOnes (batchSize : Nat) : List (List ℚ) :=
  List.replicate batchSize [1]

/-- `np.zeros((batch_size, 1))`, as a `batch_size × 1` matrix. -/
def npZeros (batchSize : Nat) : List (List ℚ) :=
  List.replicate batchSize [0]

/-- The library state and primitives `train_gan` calls into, left fully
parametric: `σ` is the combined mutable state of the NumPy RNG and the
model weights, `β` the type of image batches.  Every theorem about the
loop is quantified over this structure, so it holds whatever the
library does. -/
structure GanEnv (σ β : Type) where
  /-- `processed_images.shape[0]`. -/
  numImages : Nat
  /-- `np.random.randint(0, high, size)`. -/
  randint : Nat → Nat → σ → List Nat × σ
  /-- `np.random.normal(0, 1, (rows, cols))`. -/
  normal : Nat → Nat → σ → List (List ℚ) × σ
  /-- `processed_images[idx]`. -/
  selectReal : List Nat → β
  /-- `generator.predict(noise)`. -/
  predictG : List (List ℚ) → σ → β × σ
  /-- `discriminator.train_on_batch(imgs, labels)`, returning
  `[loss, accuracy]` and updating the weights inside `σ`. -/
  dTrainOnBatch : β → List (List ℚ) → σ → (ℚ × ℚ) × σ
  /-- `gan.train_on_batch(noise, labels)`, returning the loss. -/
  ganTrainOnBatch : List (List ℚ) → List (List ℚ) → σ → ℚ × σ

/-- The observable actions of one `train_gan` iteration, in program
order. -/
inductive TrainEvent where
  /-- `idx = np.random.randint(0, processed_images.shape[0], batch_size)`
  (followed by `real_imgs = processed_images[idx]`). -/
  | sampleRealIdx (indices : List Nat)
  /-- `noise = np.random.normal(0, 1, (rows, cols))`, recording the
  requested shape and the drawn matrix. -/
  | sampleNoise (rows cols : Nat) (noise : List (List ℚ))
  /-- `gen_imgs = generator.predict(noise)`. -/
  | predictGenerator
  /-- `discriminator.train_on_batch(...)`: `onGenerated = false` for the
  real batch, `true` for the generated batch; `labels` is the target
  vector passed. -/
  | trainDiscriminator (onGenerated : Bool) (labels : List (List ℚ))
  /-- `gan.train_on_batch(noise, labels)`: the generator update through
  the combined model. -/
  | trainCombined (noise : List (List ℚ)) (labels : List (List ℚ))
  /-- The `epoch % save_interval == 0 or epoch == 0` branch: the print
  and `save_images(generator, epoch)` (which writes
  `images/gan_generated_image_epoch_{epoch}.png`). -/
  | logAndSave (epoch : Nat) (dLoss : ℚ × ℚ) (gLoss : ℚ)
  /-- The evaluation of `epoch % save_interval` raised
  `ZeroDivisionError` (`save_interval = 0`): the exception propagates
  and the loop aborts. -/
  | zeroDivisionError
  deriving DecidableEq, Repr

/-- Python `%` on machine integers: raises `ZeroDivisionError` when the
divisor is zero (`none`), and agrees with `Nat.mod` on a positive
divisor. -/
def pyMod (a b : Nat) : Option Nat :=
  if b = 0 then none else some (a % b)

/-- One iteration of the `for epoch in range(epochs)` body of
`train_gan`, returning the updated library state, the events in
execution order, and whether the iteration raised (the save condition
`epoch % save_interval == 0 or epoch == 0` evaluates
`epoch % save_interval` first, which raises `ZeroDivisionError` when
`save_interval = 0`). -/
def trainIteration {σ β : Type} (env : GanEnv σ β) (batchSize : Nat)
    (saveInterval : Nat) (valid fake : List (List ℚ)) (epoch : Nat)
    (s : σ) : σ × List TrainEvent × Bool :=
  let r1 := env.randint env.numImages batchSize s
  let idx := r1.1
  let realImgs := env.selectReal idx
  let r2 := env.normal batchSize 100 r1.2
  let noise := r2.1
  let r3 := env.predictG noise r2.2
  let genImgs := r3.1
  let r4 := env.dTrainOnBatch realImgs valid r3.2
  let r5 := env.dTrainOnBatch genImgs fake r4.2
  let dLoss := ((r4.1.1 + r5.1.1) / 2, (r4.1.2 + r5.1.2) / 2)
  let r6 := env.normal batchSize 100 r5.2
  let noise2 := r6.1
  let r7 := env.ganTrainOnBatch noise2 valid r6.2
  let saveEvents : List TrainEvent :=
    match pyMod epoch saveInterval with
    | none => [.zeroDivisionError]
    | some m =>
      if m == 0 || epoch == 0 then [.logAndSave epoch dLoss r7.1] else []
  let crashed : Bool :=
    match pyMod epoch saveInterval with
    | none => true
    | some _ => false
  (r7.2,
   [.sampleRealIdx idx,
    .sampleNoise batchSize 100 noise,
    .predictGenerator,
    .trainDiscriminator false valid,
    .trainDiscriminator true fake,
    .sampleNoise batchSize 100 noise2,
    .trainCombined noise2 valid] ++ saveEvents,
   crashed)

/-- The `for epoch in range(epochs)` loop over an explicit list of
epoch indices, collecting one event list per iteration.  An iteration
that raised ends the loop there: its partial trace is the last entry
and no further iteration runs (the exception propagates out of
`train_gan`). -/
def trainLoop {σ β : Type} (env : GanEnv σ β) (batchSize saveInterval : Nat)
    (valid fake : List (List ℚ)) :
    List Nat → σ → σ × List (List TrainEvent)
  | [], s => (s, [])
  | e :: es, s =>
    let it := trainIteration env batchSize saveInterval valid fake e s
    if it.2.2 then
      (it.1, [it.2.1])
    else
      let rest := trainLoop env batchSize saveInterval valid fake es it.1
      (rest.1, it.2.1 :: rest.2)

/-- `train_gan(gan, generator, discriminator, epochs, batch_size,
save_interval)`: build `valid = np.ones((batch_size, 1))` and
`fake = np.zeros((batch_size, 1))` once, then run the fixed-length
loop.  The result is the final library state and the trace of every
iteration. -/
def train_gan {σ β : Type} (env : GanEnv σ β)
    (epochs batchSize saveInterval : Nat) (s : σ) :
    σ × List (List TrainEvent) :=
  let valid := npOnes batchSize
  let fake := npZeros batchSize
  trainLoop env batchSize saveInterval valid fake (List.range epochs) s

/-- The value of `idx` drawn in the iteration of `train_gan` that
starts from library state `s` (with its successor state). -/
def iterRandint {σ β : Type} (env : GanEnv σ β) (b : Nat) (s : σ) :
    List Nat × σ :=
  env.randint env.numImages b s

/-- The first noise batch drawn in the iteration starting from `s`. -/
def iterNoise1 {σ β : Type} (env : GanEnv σ β) (b : Nat) (s : σ) :
    List (List ℚ) × σ :=
  env.normal b 100 (iterRandint env b s).2

/-- The `generator.predict` call of the iteration starting from `s`. -/
def iterPredict {σ β : Type} (env : GanEnv σ β) (b : Nat) (s : σ) :
    β × σ :=
  env.predictG (iterNoise1 env b s).1 (iterNoise1 env b s).2

/-- The real-batch discriminator update of the iteration starting from
`s`. -/
def iterDReal {σ β : Type} (env : GanEnv σ β) (b : Nat)
    (valid : List (List ℚ)) (s : σ) : (ℚ × ℚ) × σ :=
  env.dTrainOnBatch (env.selectReal (iterRandint env b s).1) valid
    (iterPredict env b s).2

/-- The generated-batch discriminator update of the iteration starting
from `s`. -/
def iterDFake {σ β : Type} (env : GanEnv σ β) (b : Nat)
    (valid fake : List (List ℚ)) (s : σ) : (ℚ × ℚ) × σ :=
  env.dTrainOnBatch (iterPredict env b s).1 fake
    (iterDReal env b valid s).2

/-- The second (fresh) noise batch of the iteration starting from `s`,
drawn after both discriminator updates. -/
def iterNoise2 {σ β : Type} (env : GanEnv σ β) (b : Nat)
    (valid fake : List (List ℚ)) (s : σ) : List (List ℚ) × σ :=
  env.normal b 100 (iterDFake env b valid fake s).2

/-- A concrete, trivial instantiation of the library primitives, used
to witness the training-loop theorems at concrete inputs. -/
def unitEnv : GanEnv Unit Unit :=
  { numImages := 4
    randint := fun _ size s => (List.replicate size 0, s)
    normal := fun r c s => (List.replicate r (List.replicate c 0), s)
    selectReal := fun _ => ()
    predictG := fun _ s => ((), s)
    dTrainOnBatch := fun _ _ s => ((0, 0), s)
    ganTrainOnBatch := fun _ _ s => (0, s) }

/-! ## Concrete fixtures used by the witnesses -/

/-- A concrete 2×2 image used to witness the preprocessing theorems. -/
def testImage : Image :=
  { width := 2
    height := 2
    pix := fun _ _ => ⟨10, 20, 30⟩ }

/-- A concrete well-formed annotation document. -/
def testDoc : XmlDoc :=
  { filenameText := some "n02085620_7"
    widthText := some "2"
    heightText := some "2"
    nameText := some "Chihuahua"
    xminText := some "0"
    yminText := some "0"
    xmaxText := some "2"
    ymaxText := some "2" }

/-- The record ` parse_annotation` extracts from `testDoc`. -/
def testRecord : AnnotationData :=
  { filename := "n02085620_7"
    width := 2
    height := 2
    class_ := "Chihuahua"
    xmin := 0
    ymin := 0
    xmax := 2
    ymax := 2 }

/-- A filesystem holding exactly the image of `testRecord`. -/
def testFs : FileSystem :=
  fun path => if path = imagePathOf testRecord then some testImage else none

/-- A filesystem with no files at all. -/
def emptyFs : FileSystem := fun _ => none

/-- An annotation document missing the `object/bndbox/ymax` element. -/
def truncatedDoc : XmlDoc :=
  { filenameText := some "n02085620_8"
    widthText := some "3"
    heightText := some "3"
    nameText := some "Chihuahua"
    xminText := some "0"
    yminText := some "0"
    xmaxText := some "2"
    ymaxText := none }

/-! ## Helper lemmas about the training loop -/

theorem pyMod_pos (a : Nat) {b : Nat} (hb : 0 < b) :
    pyMod a b = some (a % b) := by
  unfold pyMod
  rw [if_neg (Nat.pos_iff_ne_zero.mp hb)]

theorem trainIteration_crashed_false {σ β : Type} {env : GanEnv σ β}
    {b si : Nat} {valid fake : List (List ℚ)} {e : Nat} {s : σ}
    (hsi : 0 < si) :
    (trainIteration env b si valid fake e s).2.2 = false := by
  simp only [trainIteration, pyMod_pos e hsi]

theorem trainLoop_snd_length {σ β : Type} (env : GanEnv σ β)
    (b si : Nat) (valid fake : List (List ℚ)) (es : List Nat) (s : σ)
    (hsi : 0 < si) :
    ((trainLoop env b si valid fake es s).2).length = es.length := by
  induction es generalizing s with
  | nil => rfl
  | cons e es ih =>
    simp [trainLoop, trainIteration_crashed_false hsi, ih]

theorem trainLoop_mem {σ β : Type} (env : GanEnv σ β)
    (b si : Nat) (valid fake : List (List ℚ)) (es : List Nat) (s : σ)
    (evs : List TrainEvent) (h : evs ∈ (trainLoop env b si valid fake es s).2) :
    ∃ e s', e ∈ es ∧ evs = (trainIteration env b si valid fake e s').2.1 := by
  induction es generalizing s with
  | nil => simp [trainLoop] at h
  | cons e es ih =>
    simp only [trainLoop] at h
    split at h
    · simp only [List.mem_singleton] at h
      exact ⟨e, s, List.mem_cons_self _ _, h⟩
    · simp only [List.mem_cons] at h
      rcases h with h | h
      · exact ⟨e, s, List.mem_cons_self _ _, h⟩
      · obtain ⟨e', s', he', heq⟩ := ih _ h
        exact ⟨e', s', List.mem_cons_of_mem _ he', heq⟩

theorem trainLoop_snd_getD {σ β : Type} (env : GanEnv σ β)
    (b si : Nat) (valid fake : List (List ℚ)) (es : List Nat) (s : σ)
    (hsi : 0 < si) (i : Nat) (hi : i < es.length) :
    ∃ s', (trainLoop env b si valid fake es s).2.getD i [] =
      (trainIteration env b si valid fake (es.getD i 0) s').2.1 := by
  induction es generalizing s i with
  | nil => simp at hi
  | cons e es ih =>
    have hcf : (trainIteration env b si valid fake e s).2.2 = false :=
      trainIteration_crashed_false hsi
    cases i with
    | zero =>
      refine ⟨s, ?_⟩
      simp [trainLoop, hcf]
    | succ i =>
      simp only [List.length_cons, Nat.succ_lt_succ_iff] at hi
      obtain ⟨s', hs'⟩ :=
        ih ((trainIteration env b si valid fake e s).1) i hi
      refine ⟨s', ?_⟩
      simpa [trainLoop, hcf] using hs'

/-! ## Claims about the training loop -/

/-- C6, counterexample to the claim as stated: the claim quantifies
over every call with only `epochs ≥ 0`, but a call with
`save_interval = 0` raises `ZeroDivisionError` at the save condition
of the very first iteration (Python evaluates `epoch % save_interval`
before the `or`), so the loop aborts: with `epochs = 2` the trace
holds a single, aborted iteration instead of two. -/
theorem train_gan_zero_interval_counterexample :
    ((train_gan unitEnv 2 2 0 ()).2).length ≠ 2 ∧
    TrainEvent.zeroDivisionError ∈ (train_gan unitEnv 2 2 0 ()).2.headI := by
  decide

/-- C6, amended: for every call of `train_gan` with
`save_interval > 0` (every call site passes 1000), the loop executes
exactly `epochs` iterations and terminates.  The theorem is quantified
over every possible behaviour of the RNG and of the model-update
primitives (`env`), so no loss value, accuracy value or any other
condition can shorten or extend the loop: the trace always has exactly
`epochs` iterations.  (`epochs` is a `Nat`; Python's `range` likewise
runs zero iterations for a non-positive argument.) -/
theorem train_gan_runs_exactly_epochs {σ β : Type} (env : GanEnv σ β)
    (epochs batchSize saveInterval : Nat) (s : σ)
    (hsi : 0 < saveInterval) :
    ((train_gan env epochs batchSize saveInterval s).2).length = epochs := by
  simp [train_gan, trainLoop_snd_length env batchSize saveInterval
    (npOnes batchSize) (npZeros batchSize) (List.range epochs) s hsi]

/-- Witness for the amended C6 at a concrete environment. -/
theorem train_gan_runs_exactly_epochs_witness :
    0 < 1000 ∧ ((train_gan unitEnv 3 2 1000 ()).2).length = 3 :=
  ⟨by decide, train_gan_runs_exactly_epochs unitEnv 3 2 1000 () (by decide)⟩

/-- C7: in every iteration of `train_gan`'s loop, starting from some
library state `s₀`, the operations happen in exactly this order: the
real-batch indices are drawn by `np.random.randint(0,
processed_images.shape[0], batch_size)`; a `(batch_size, 100)` noise
matrix is drawn; the generator predicts on that noise; the
discriminator is trained on the real batch (label vector `valid`),
then on the generated batch (label vector `fake`); a fresh
`(batch_size, 100)` noise matrix is drawn; and only then is the
combined model trained on that fresh noise.  The trailing `tail` is
the (possibly empty) logging/saving step. -/
theorem train_gan_iteration_order {σ β : Type} (env : GanEnv σ β)
    (epochs batchSize saveInterval : Nat) (s : σ)
    (evs : List TrainEvent)
    (h : evs ∈ (train_gan env epochs batchSize saveInterval s).2) :
    ∃ (s₀ : σ) (tail : List TrainEvent),
      evs =
        [.sampleRealIdx (iterRandint env batchSize s₀).1,
         .sampleNoise batchSize 100 (iterNoise1 env batchSize s₀).1,
         .predictGenerator,
         .trainDiscriminator false (npOnes batchSize),
         .trainDiscriminator true (npZeros batchSize),
         .sampleNoise batchSize 100
           (iterNoise2 env batchSize (npOnes batchSize) (npZeros batchSize) s₀).1,
         .trainCombined
           (iterNoise2 env batchSize (npOnes batchSize) (npZeros batchSize) s₀).1
           (npOnes batchSize)] ++ tail := by
  obtain ⟨e, s', _, rfl⟩ := trainLoop_mem env batchSize saveInterval
    (npOnes batchSize) (npZeros batchSize) (List.range epochs) s evs h
  exact ⟨s', _, rfl⟩

/-- Witness for C7 at a concrete environment: the single iteration of
`train_gan unitEnv 1 2 1000 ()` has the claimed shape. -/
theorem train_gan_iteration_order_witness :
    ∃ (s₀ : Unit) (tail : List TrainEvent),
      (train_gan unitEnv 1 2 1000 ()).2.headI =
        [.sampleRealIdx (iterRandint unitEnv 2 s₀).1,
         .sampleNoise 2 100 (iterNoise1 unitEnv 2 s₀).1,
         .predictGenerator,
         .trainDiscriminator false (npOnes 2),
         .trainDiscriminator true (npZeros 2),
         .sampleNoise 2 100 (iterNoise2 unitEnv 2 (npOnes 2) (npZeros 2) s₀).1,
         .trainCombined (iterNoise2 unitEnv 2 (npOnes 2) (npZeros 2) s₀).1
           (npOnes 2)] ++ tail :=
  train_gan_iteration_order unitEnv 1 2 1000 ()
    ((train_gan unitEnv 1 2 1000 ()).2.headI)
    (by simp [train_gan, trainLoop, List.range, List.range.loop])

/-- C10: the adversarial labelling invariant.  In every iteration of
`train_gan`, the discriminator's real-batch update uses the target
vector `valid = np.ones((batch_size, 1))`, its generated-batch update
uses `fake = np.zeros((batch_size, 1))`, and the combined-model update
uses `valid` again; both label arrays are the ones built once before
the loop (`npOnes` / `npZeros`), identical in every iteration, and
they have shape `batch_size × 1`. -/
theorem train_gan_label_invariant {σ β : Type} (env : GanEnv σ β)
    (epochs batchSize saveInterval : Nat) (s : σ)
    (evs : List TrainEvent)
    (h : evs ∈ (train_gan env epochs batchSize saveInterval s).2) :
    (∀ l, TrainEvent.trainDiscriminator false l ∈ evs → l = npOnes batchSize) ∧
    (∀ l, TrainEvent.trainDiscriminator true l ∈ evs → l = npZeros batchSize) ∧
    (∀ n l, TrainEvent.trainCombined n l ∈ evs → l = npOnes batchSize) ∧
    (npOnes batchSize).length = batchSize ∧
    (∀ row ∈ npOnes batchSize, row = [(1 : ℚ)]) ∧
    (npZeros batchSize).length = batchSize ∧
    (∀ row ∈ npZeros batchSize, row = [(0 : ℚ)]) := by
  obtain ⟨e, s', _, rfl⟩ := trainLoop_mem env batchSize saveInterval
    (npOnes batchSize) (npZeros batchSize) (List.range epochs) s evs h
  refine ⟨?_, ?_, ?_, ?_, ?_, ?_, ?_⟩
  · intro l hl
    simp only [trainIteration, List.mem_append, List.mem_cons,
      List.not_mem_nil, or_false] at hl
    rcases hl with hl | hl
    · rcases hl with h' | h' | h' | h' | h' | h' | h' <;> cases h' <;> rfl
    · split at hl <;> simp at hl
  · intro l hl
    simp only [trainIteration, List.mem_append, List.mem_cons,
      List.not_mem_nil, or_false] at hl
    rcases hl with hl | hl
    · rcases hl with h' | h' | h' | h' | h' | h' | h' <;> cases h' <;> rfl
    · split at hl <;> simp at hl
  · intro n l hl
    simp only [trainIteration, List.mem_append, List.mem_cons,
      List.not_mem_nil, or_false] at hl
    rcases hl with hl | hl
    · rcases hl with h' | h' | h' | h' | h' | h' | h' <;> cases h' <;> rfl
    · split at hl <;> simp at hl
  · simp [npOnes]
  · intro row hrow
    exact List.eq_of_mem_replicate hrow
  · simp [npZeros]
  · intro row hrow
    exact List.eq_of_mem_replicate hrow

/-- Witness for C10 at a concrete environment and batch size. -/
theorem train_gan_label_invariant_witness :
    (∀ l, TrainEvent.trainDiscriminator false l ∈
        (train_gan unitEnv 1 2 1000 ()).2.headI → l = npOnes 2) ∧
    (∀ l, TrainEvent.trainDiscriminator true l ∈
        (train_gan unitEnv 1 2 1000 ()).2.headI → l = npZeros 2) ∧
    (∀ n l, TrainEvent.trainCombined n l ∈
        (train_gan unitEnv 1 2 1000 ()).2.headI → l = npOnes 2) ∧
    (npOnes 2).length = 2 ∧
    (∀ row ∈ npOnes 2, row = [(1 : ℚ)]) ∧
    (npZeros 2).length = 2 ∧
    (∀ row ∈ npZeros 2, row = [(0 : ℚ)]) :=
  train_gan_label_invariant unitEnv 1 2 1000 ()
    ((train_gan unitEnv 1 2 1000 ()).2.headI)
    (by simp [train_gan, trainLoop, List.range, List.range.loop])

/-- C8: with `save_interval > 0`, iteration `epoch` of `train_gan`
performs the render-and-save step (`save_images`, which writes
`images/gan_generated_image_epoch_{epoch}.png`) exactly when
`epoch % save_interval == 0` (the `or epoch == 0` disjunct in the
source is subsumed, since `0 % save_interval = 0`); in every other
iteration no save event occurs, and any save event recorded in
iteration `epoch` carries that same epoch number. -/
theorem train_gan_saves_iff_interval {σ β : Type} (env : GanEnv σ β)
    (epochs batchSize saveInterval : Nat) (s : σ)
    (hsi : 0 < saveInterval) (e : Nat) (he : e < epochs) :
    ((∃ d g, TrainEvent.logAndSave e d g ∈
        (train_gan env epochs batchSize saveInterval s).2.getD e []) ↔
      e % saveInterval = 0) ∧
    (∀ e' d g, TrainEvent.logAndSave e' d g ∈
        (train_gan env epochs batchSize saveInterval s).2.getD e [] → e' = e) := by
  obtain ⟨s', hs'⟩ := trainLoop_snd_getD env batchSize saveInterval
    (npOnes batchSize) (npZeros batchSize) (List.range epochs) s hsi e
    (by simpa using he)
  have hrange : (List.range epochs).getD e 0 = e := by
    simp [List.getD, List.getElem?_range, he]
  have hm : pyMod e saveInterval = some (e % saveInterval) :=
    pyMod_pos e hsi
  simp only [train_gan]
  rw [hs', hrange]
  constructor
  · constructor
    · rintro ⟨d, g, hd⟩
      simp only [trainIteration, hm, List.mem_append, List.mem_cons,
        List.not_mem_nil, or_false] at hd
      rcases hd with hd | hd
      · rcases hd with h' | h' | h' | h' | h' | h' | h' <;> cases h'
      · split at hd
        · next hcond =>
          simp only [Nat.beq_eq, Bool.or_eq_true, beq_iff_eq] at hcond
          rcases hcond with hcond | hcond
          · exact hcond
          · simp [hcond]
        · simp at hd
    · intro hmod
      have hcond : (e % saveInterval == 0 || e == 0) = true := by
        simp [hmod]
      simp only [trainIteration, hm, List.mem_append, hcond, if_true]
      exact ⟨_, _, Or.inr (List.mem_singleton.mpr rfl)⟩
  · intro e' d g hd
    simp only [trainIteration, hm, List.mem_append, List.mem_cons,
      List.not_mem_nil, or_false] at hd
    rcases hd with hd | hd
    · rcases hd with h' | h' | h' | h' | h' | h' | h' <;> cases h'
    · split at hd
      · simp only [List.mem_singleton] at hd
        cases hd
        rfl
      · simp at hd

/-- Witness for C8: with `save_interval = 2` over two epochs, iteration
1 saves nothing and any save in it would carry epoch 1. -/
theorem train_gan_saves_iff_interval_witness :
    0 < 2 ∧ 1 < 2 ∧
    (((∃ d g, TrainEvent.logAndSave 1 d g ∈
        (train_gan unitEnv 2 2 2 ()).2.getD 1 []) ↔ 1 % 2 = 0) ∧
     (∀ e' d g, TrainEvent.logAndSave e' d g ∈
        (train_gan unitEnv 2 2 2 ()).2.getD 1 [] → e' = 1)) :=
  ⟨by decide, by decide,
   train_gan_saves_iff_interval unitEnv 2 2 2 () (by decide) 1 (by decide)⟩

/-! ## Claims about annotation parsing -/

/-- C5: on a valid annotation file — every required element present,
the six numeric texts parsing as integers — ` parse_annotation` returns
the record with exactly the eight fields `filename`, `width`,
`height`, `class`, `xmin`, `ymin`, `xmax`, `ymax` (the fields of
`AnnotationData`), the integers parsed from the corresponding element
texts and the two strings taken verbatim. -/
theorem parse_annotation_valid_fields (doc : XmlDoc)
    (fn cls wt ht x1t y1t x2t y2t : String) (w h x1 y1 x2 y2 : Int)
    (hfn : doc.filenameText = some fn)
    (hwt : doc.widthText = some wt) (hw : pyInt wt = some w)
    (hht : doc.heightText = some ht) (hh : pyInt ht = some h)
    (hcls : doc.nameText = some cls)
    (hx1t : doc.xminText = some x1t) (hx1 : pyInt x1t = some x1)
    (hy1t : doc.yminText = some y1t) (hy1 : pyInt y1t = some y1)
    (hx2t : doc.xmaxText = some x2t) (hx2 : pyInt x2t = some x2)
    (hy2t : doc.ymaxText = some y2t) (hy2 : pyInt y2t = some y2) :
    parse_annotation (.wellFormed doc) =
      .ok { filename := fn, width := w, height := h, class_ := cls,
            xmin := x1, ymin := y1, xmax := x2, ymax := y2 } := by
  simp only [ parse_annotation, getText, getInt, hfn, hwt, hw, hht, hh,
    hcls, hx1t, hx1, hy1t, hy1, hx2t, hx2, hy2t, hy2]
  rfl

/-- Witness for C5: `testDoc` parses to `testRecord`. -/
theorem parse_annotation_valid_fields_witness :
    parse_annotation (.wellFormed testDoc) = .ok testRecord :=
  parse_annotation_valid_fields testDoc
    "n02085620_7" "Chihuahua" "2" "2" "0" "0" "2" "2" 2 2 0 0 2 2
    rfl rfl rfl rfl rfl rfl rfl rfl rfl rfl rfl rfl rfl rfl

theorem ok_bind_except {e a c : Type} (x : a) (f : a → Except e c) :
    (Except.ok x >>= f) = f x := rfl

theorem error_bind_except {e a c : Type} (err : e) (f : a → Except e c) :
    (Except.error err >>= f) = Except.error err := rfl

theorem buildAnnotationsFolder_ok_parses (files : List XmlFile)
    (res : List AnnotationData)
    (hok : buildAnnotationsFolder files = .ok res) :
    ∀ x ∈ files, ∃ a, parse_annotation x = .ok a := by
  induction files generalizing res with
  | nil => intro x hx; simp at hx
  | cons f rest ih =>
    intro x hx
    cases hpa : parse_annotation f with
    | error e =>
      simp only [buildAnnotationsFolder, hpa, error_bind_except] at hok
      exact Except.noConfusion hok
    | ok a =>
      cases hre : buildAnnotationsFolder rest with
      | error e =>
        simp only [buildAnnotationsFolder, hpa, hre, ok_bind_except,
          error_bind_except] at hok
        exact Except.noConfusion hok
      | ok tail =>
        rcases List.mem_cons.mp hx with rfl | hx'
        · exact ⟨a, hpa⟩
        · exact ih tail hre x hx'

theorem buildAnnotations_ok_parses (folders : List (List XmlFile))
    (res : List AnnotationData)
    (hok : buildAnnotations folders = .ok res) :
    ∀ folder ∈ folders, ∀ x ∈ folder, ∃ a, parse_annotation x = .ok a := by
  induction folders generalizing res with
  | nil => intro folder hf; simp at hf
  | cons folder rest ih =>
    intro fo hfo x hx
    cases hfold : buildAnnotationsFolder folder with
    | error e =>
      simp only [buildAnnotations, hfold, error_bind_except] at hok
      exact Except.noConfusion hok
    | ok xs =>
      cases hre : buildAnnotations rest with
      | error e =>
        simp only [buildAnnotations, hfold, hre, ok_bind_except,
          error_bind_except] at hok
        exact Except.noConfusion hok
      | ok ys =>
        rcases List.mem_cons.mp hfo with rfl | hfo'
        · exact buildAnnotationsFolder_ok_parses fo xs hfold x hx
        · exact ih ys hre fo hfo' x hx

theorem loadFolder_ok_parses (fs : FileSystem) (files : List XmlFile)
    (res : List (List (List (List ℚ))) × List AnnotationData)
    (hok : loadFolder fs files = .ok res) :
    ∀ x ∈ files, ∃ a, parse_annotation x = .ok a := by
  induction files generalizing res with
  | nil => intro x hx; simp at hx
  | cons f rest ih =>
    intro x hx
    cases hpa : parse_annotation f with
    | error e =>
      simp only [loadFolder, hpa, error_bind_except] at hok
      exact Except.noConfusion hok
    | ok a =>
      rcases List.mem_cons.mp hx with rfl | hx'
      · exact ⟨a, hpa⟩
      · simp only [loadFolder, hpa, ok_bind_except] at hok
        split at hok
        · exact ih res hok x hx'
        · split at hok
          · exact ih res hok x hx'
          · cases hre : loadFolder fs rest with
            | error e =>
              rw [hre, error_bind_except] at hok
              exact Except.noConfusion hok
            | ok tail => exact ih tail hre x hx'

theorem load_ok_parses (fs : FileSystem) (folders : List (List XmlFile))
    (res : List (List (List (List ℚ))) × List AnnotationData)
    (hok : load_and_preprocess_images fs folders = .ok res) :
    ∀ folder ∈ folders, ∀ x ∈ folder, ∃ a, parse_annotation x = .ok a := by
  induction folders generalizing res with
  | nil => intro folder hf; simp at hf
  | cons folder rest ih =>
    intro fo hfo x hx
    cases hfold : loadFolder fs folder with
    | error e =>
      simp only [load_and_preprocess_images, hfold] at hok
      exact Except.noConfusion hok
    | ok xs =>
      cases hre : load_and_preprocess_images fs rest with
      | error e =>
        simp only [load_and_preprocess_images, hfold, hre] at hok
        exact Except.noConfusion hok
      | ok ys =>
        rcases List.mem_cons.mp hfo with rfl | hfo'
        · exact loadFolder_ok_parses fs fo xs hfold x hx
        · exact ih ys hre fo hfo' x hx

/-- C4: an annotation file on which ` parse_annotation` raises makes the
exception propagate uncaught through both callers: the
DataFrame-building loop and `load_and_preprocess_images` both end in
that uncaught exception (an `.error` result), and no annotation record
is produced for the file (or at all — the whole computation aborts). -/
theorem malformed_annotation_propagates (x : XmlFile) (e : PyError)
    (folder : List XmlFile) (folders : List (List XmlFile))
    (fs : FileSystem)
    (hx : parse_annotation x = .error e)
    (hmem : x ∈ folder) (hmemf : folder ∈ folders) :
    (∃ e', buildAnnotations folders = .error e') ∧
    (∃ e', load_and_preprocess_images fs folders = .error e') := by
  constructor
  · cases hres : buildAnnotations folders with
    | error e' => exact ⟨e', rfl⟩
    | ok l =>
      obtain ⟨a, ha⟩ := buildAnnotations_ok_parses folders l hres folder hmemf x hmem
      rw [hx] at ha
      cases ha
  · cases hres : load_and_preprocess_images fs folders with
    | error e' => exact ⟨e', rfl⟩
    | ok l =>
      obtain ⟨a, ha⟩ := load_ok_parses fs folders l hres folder hmemf x hmem
      rw [hx] at ha
      cases ha

/-- Witness for C4: a folder containing `truncatedDoc` (missing
`ymax`) aborts both loops. -/
theorem malformed_annotation_propagates_witness :
    (∃ e', buildAnnotations [[XmlFile.wellFormed truncatedDoc]] = .error e') ∧
    (∃ e', load_and_preprocess_images emptyFs
        [[XmlFile.wellFormed truncatedDoc]] = .error e') :=
  malformed_annotation_propagates (XmlFile.wellFormed truncatedDoc)
    PyError.attributeError [XmlFile.wellFormed truncatedDoc]
    [[XmlFile.wellFormed truncatedDoc]] emptyFs rfl
    (List.mem_singleton.mpr rfl) (List.mem_singleton.mpr rfl)

/-! ## Claims about the preprocessing pipeline -/

/-- C3: an annotation record whose image file does not exist
(`Image.open` raises `FileNotFoundError`) is skipped silently:
`load_and_preprocess_images` raises nothing, appends nothing to the
processed-image list or the annotation list for the record, and
continues with the remaining records exactly as if the record were not
there — the result over the folder (and over the whole directory
tree) is literally the result without that record. -/
theorem missing_image_silently_skipped (fs : FileSystem) (x : XmlFile)
    (a : AnnotationData) (rest : List XmlFile)
    (more : List (List XmlFile))
    (hparse : parse_annotation x = .ok a)
    (hmiss : fs (imagePathOf a) = none) :
    loadFolder fs (x :: rest) = loadFolder fs rest ∧
    load_and_preprocess_images fs ((x :: rest) :: more) =
      load_and_preprocess_images fs (rest :: more) := by
  have h1 : loadFolder fs (x :: rest) = loadFolder fs rest := by
    simp only [loadFolder, hparse, ok_bind_except]
    split
    · rfl
    · rw [hmiss]
  exact ⟨h1, by simp only [load_and_preprocess_images, h1]⟩

/-- Witness for C3: with an empty filesystem the record of `testDoc`
is skipped. -/
theorem missing_image_silently_skipped_witness :
    loadFolder emptyFs [XmlFile.wellFormed testDoc] = loadFolder emptyFs [] ∧
    load_and_preprocess_images emptyFs [[XmlFile.wellFormed testDoc]] =
      load_and_preprocess_images emptyFs [[]] :=
  missing_image_silently_skipped emptyFs (XmlFile.wellFormed testDoc)
    testRecord [] [] rfl rfl

/-- C2: the per-record processing of `load_and_preprocess_images`
crops to the square whose top-left corner is `(xmin, ymin)` and whose
side is `w = min (xmax - xmin) (ymax - ymin)` — the crop box is
`(xmin, ymin, xmin + w, ymin + w)`, so the cropped image is `w × w`
and its pixel `(i, j)` is the source pixel `(xmin + i, ymin + j)` —
and then resizes the crop to `128 × 128` before normalizing. -/
theorem crop_box_is_square_min_side (image : Image) (a : AnnotationData)
    (i j : Int)
    (hx0 : 0 ≤ a.xmin + i) (hxw : a.xmin + i < (image.width : Int))
    (hy0 : 0 ≤ a.ymin + j) (hyh : a.ymin + j < (image.height : Int)) :
    processOne image a =
      normalize_image (npArrayOf
        ((image.crop (a.xmin, a.ymin,
            a.xmin + min (a.xmax - a.xmin) (a.ymax - a.ymin),
            a.ymin + min (a.xmax - a.xmin) (a.ymax - a.ymin))).resizeTo
          128 128)) ∧
    (image.crop (a.xmin, a.ymin,
        a.xmin + min (a.xmax - a.xmin) (a.ymax - a.ymin),
        a.ymin + min (a.xmax - a.xmin) (a.ymax - a.ymin))).width =
      (min (a.xmax - a.xmin) (a.ymax - a.ymin)).toNat ∧
    (image.crop (a.xmin, a.ymin,
        a.xmin + min (a.xmax - a.xmin) (a.ymax - a.ymin),
        a.ymin + min (a.xmax - a.xmin) (a.ymax - a.ymin))).height =
      (min (a.xmax - a.xmin) (a.ymax - a.ymin)).toNat ∧
    (image.crop (a.xmin, a.ymin,
        a.xmin + min (a.xmax - a.xmin) (a.ymax - a.ymin),
        a.ymin + min (a.xmax - a.xmin) (a.ymax - a.ymin))).pix i j =
      image.pix (a.xmin + i) (a.ymin + j) := by
  refine ⟨rfl, ?_, ?_, ?_⟩
  · simp [Image.crop]
  · simp [Image.crop]
  · simp [Image.crop, hx0, hxw, hy0, hyh]

/-- Witness for C2 at the concrete image and annotation, sampling the
crop's pixel `(0, 0)`. -/
theorem crop_box_is_square_min_side_witness :
    processOne testImage testRecord =
      normalize_image (npArrayOf
        ((testImage.crop (testRecord.xmin, testRecord.ymin,
            testRecord.xmin +
              min (testRecord.xmax - testRecord.xmin)
                (testRecord.ymax - testRecord.ymin),
            testRecord.ymin +
              min (testRecord.xmax - testRecord.xmin)
                (testRecord.ymax - testRecord.ymin))).resizeTo
          128 128)) ∧
    (testImage.crop (testRecord.xmin, testRecord.ymin,
        testRecord.xmin +
          min (testRecord.xmax - testRecord.xmin)
            (testRecord.ymax - testRecord.ymin),
        testRecord.ymin +
          min (testRecord.xmax - testRecord.xmin)
            (testRecord.ymax - testRecord.ymin))).width =
      (min (testRecord.xmax - testRecord.xmin)
        (testRecord.ymax - testRecord.ymin)).toNat ∧
    (testImage.crop (testRecord.xmin, testRecord.ymin,
        testRecord.xmin +
          min (testRecord.xmax - testRecord.xmin)
            (testRecord.ymax - testRecord.ymin),
        testRecord.ymin +
          min (testRecord.xmax - testRecord.xmin)
            (testRecord.ymax - testRecord.ymin))).height =
      (min (testRecord.xmax - testRecord.xmin)
        (testRecord.ymax - testRecord.ymin)).toNat ∧
    (testImage.crop (testRecord.xmin, testRecord.ymin,
        testRecord.xmin +
          min (testRecord.xmax - testRecord.xmin)
            (testRecord.ymax - testRecord.ymin),
        testRecord.ymin +
          min (testRecord.xmax - testRecord.xmin)
            (testRecord.ymax - testRecord.ymin))).pix 0 0 =
      testImage.pix (testRecord.xmin + 0) (testRecord.ymin + 0) :=
  crop_box_is_square_min_side testImage testRecord 0 0
    (by decide) (by decide) (by decide) (by decide)

/-- C9: preprocessing is deterministic.  Two runs of the per-image
step on the same image content (two `Image` values equal in size and
pixel-wise, however they were produced) and the same annotation record
yield element-wise equal output arrays; the computation draws on no
random source. -/
theorem preprocessing_deterministic (img1 img2 : Image)
    (a : AnnotationData)
    (hw : img1.width = img2.width) (hh : img1.height = img2.height)
    (hp : ∀ x y : Int, img1.pix x y = img2.pix x y) :
    processOne img1 a = processOne img2 a := by
  simp only [processOne, normalize_image, npArrayOf, Image.resizeTo,
    Image.crop, hw, hh, hp]

/-- Witness for C9 at the concrete image and annotation. -/
theorem preprocessing_deterministic_witness :
    (∀ x y : Int, testImage.pix x y = testImage.pix x y) ∧
    processOne testImage testRecord = processOne testImage testRecord :=
  ⟨fun _ _ => rfl,
   preprocessing_deterministic testImage testImage testRecord
     rfl rfl (fun _ _ => rfl)⟩

theorem processOne_shape (img : Image) (a : AnnotationData) :
    (processOne img a).length = 128 ∧
    ∀ row ∈ processOne img a, row.length = 128 ∧
      ∀ px ∈ row, px.length = 3 ∧ ∀ v ∈ px, 0 ≤ v ∧ v ≤ 1 := by
  constructor
  · simp [processOne, normalize_image, npArrayOf, Image.resizeTo]
  · intro row hrow
    simp only [processOne, normalize_image, List.mem_map] at hrow
    obtain ⟨row0, hrow0, rfl⟩ := hrow
    simp only [npArrayOf, List.mem_map] at hrow0
    obtain ⟨y, _, rfl⟩ := hrow0
    constructor
    · simp [Image.resizeTo]
    · intro px hpx
      simp only [List.mem_map] at hpx
      obtain ⟨px0, ⟨x, _, rfl⟩, rfl⟩ := hpx
      constructor
      · simp
      · intro v hv
        simp only [List.mem_map, List.mem_cons, List.not_mem_nil,
          or_false] at hv
        obtain ⟨c, hc, rfl⟩ := hv
        have hc255 : c ≤ 255 := by
          rcases hc with h | h | h <;> exact h ▸ Fin.is_le _
        constructor
        · exact div_nonneg (Nat.cast_nonneg c) (by norm_num)
        · rw [div_le_one (by norm_num)]
          exact_mod_cast hc255

theorem loadFolder_mem_processed (fs : FileSystem) (files : List XmlFile)
    (res : List (List (List (List ℚ))) × List AnnotationData)
    (hok : loadFolder fs files = .ok res) :
    ∀ p ∈ res.1, ∃ img a, p = processOne img a := by
  induction files generalizing res with
  | nil =>
    intro p hp
    simp only [loadFolder] at hok
    injection hok with h
    subst h
    simp at hp
  | cons f rest ih =>
    intro p hp
    cases hpa : parse_annotation f with
    | error e =>
      simp only [loadFolder, hpa, error_bind_except] at hok
      exact Except.noConfusion hok
    | ok a =>
      simp only [loadFolder, hpa, ok_bind_except] at hok
      split at hok
      · exact ih res hok p hp
      · split at hok
        · exact ih res hok p hp
        · rename_i img _
          cases hre : loadFolder fs rest with
          | error e =>
            rw [hre, error_bind_except] at hok
            exact Except.noConfusion hok
          | ok tail =>
            rw [hre, ok_bind_except] at hok
            injection hok with h
            subst h
            rcases List.mem_cons.mp hp with rfl | hp'
            · exact ⟨img, a, rfl⟩
            · exact ih tail hre p hp'

theorem load_mem_processed (fs : FileSystem)
    (folders : List (List XmlFile))
    (res : List (List (List (List ℚ))) × List AnnotationData)
    (hok : load_and_preprocess_images fs folders = .ok res) :
    ∀ p ∈ res.1, ∃ img a, p = processOne img a := by
  induction folders generalizing res with
  | nil =>
    intro p hp
    simp only [load_and_preprocess_images] at hok
    injection hok with h
    subst h
    simp at hp
  | cons folder rest ih =>
    intro p hp
    cases hfold : loadFolder fs folder with
    | error e =>
      simp only [load_and_preprocess_images, hfold, error_bind_except] at hok
      exact Except.noConfusion hok
    | ok xs =>
      cases hre : load_and_preprocess_images fs rest with
      | error e =>
        simp only [load_and_preprocess_images, hfold, hre, ok_bind_except,
          error_bind_except] at hok
        exact Except.noConfusion hok
      | ok ys =>
        simp only [load_and_preprocess_images, hfold, hre,
          ok_bind_except] at hok
        injection hok with h
        subst h
        rcases List.mem_append.mp hp with hp' | hp'
        · exact loadFolder_mem_processed fs folder xs hfold p hp'
        · exact ih ys hre p hp'

/-- C1: every array that `load_and_preprocess_images` appends to its
processed-image result — the crop of an opened image to the
annotation's square box, resized and passed through `normalize_image`
— has shape `128 × 128 × 3` and every element lies in `[0, 1]`. -/
theorem load_processed_images_shape (fs : FileSystem)
    (folders : List (List XmlFile))
    (res : List (List (List (List ℚ))) × List AnnotationData)
    (p : List (List (List ℚ)))
    (hok : load_and_preprocess_images fs folders = .ok res)
    (hp : p ∈ res.1) :
    p.length = 128 ∧
    ∀ row ∈ p, row.length = 128 ∧
      ∀ px ∈ row, px.length = 3 ∧ ∀ v ∈ px, 0 ≤ v ∧ v ≤ 1 := by
  obtain ⟨img, a, rfl⟩ := load_mem_processed fs folders res hok p hp
  exact processOne_shape img a

/-- Witness for C1: the single processed image of the concrete
filesystem and annotation folder has the claimed shape and bounds. -/
theorem load_processed_images_shape_witness :
    (processOne testImage testRecord).length = 128 ∧
    ∀ row ∈ processOne testImage testRecord, row.length = 128 ∧
      ∀ px ∈ row, px.length = 3 ∧ ∀ v ∈ px, 0 ≤ v ∧ v ≤ 1 :=
  load_processed_images_shape testFs [[XmlFile.wellFormed testDoc]]
    ([processOne testImage testRecord], [testRecord])
    (processOne testImage testRecord) rfl
    (List.mem_singleton.mpr rfl)
